import Mathlib

/-!
Shallow embedding of the `SimpleWebSocketAPI` class (latest revision of the
repository source) together with proofs about its correlation & dispatch
protocol: envelope handling, the pending-request mapping, reply routing,
timeout handling, the binary side-channel and the bind/destroy lifecycle.

Modelling conventions:
* JavaScript values appearing as payloads are modelled by the inductive
  `JSValue`; `ArrayBuffer`, views over one and `Blob` all collapse into the
  `binary` constructor (the source only tests membership in that family).
* The host `Promise`/`setTimeout` machinery is made explicit: the endpoint
  state carries the armed reply-timeout timers and the settlement state of
  every promise returned by `send`.  Firing a timer is an explicit step.
* JSON serialization/parsing is an external collaborator (assumed correct by
  the repository); an incoming text frame is therefore represented by its
  parse outcome (`ParseOutcome`).
* The event-emitter is external; whether an event name has subscribers is a
  parameter (`listened`), and emissions are recorded as outputs.
-/

namespace SWS

/-- readyState constants from the source (`const OPEN = 1`, `const CLOSED = 3`). -/
def OPEN : Nat := 1

/-- readyState constant `CLOSED = 3` from the source. -/
def CLOSED : Nat := 3

/-- The external WebSocket transport, as far as the class reads it. -/
structure WS where
  readyState : Nat
  binaryType : String
  deriving Repr, DecidableEq

/-- `SimpleWebSocketAPI_Error` from the source: a message plus an error code
(the constructor defaults the code to `INVALID_PARAMETER`). -/
structure SWSError where
  message : String
  code : String
  deriving Repr, DecidableEq

/-- Constructor of `SimpleWebSocketAPI_Error`; the source's default code is
passed explicitly at every construction site. -/
def mkError (message : String) (code : String) : SWSError :=
  ⟨message, code⟩

/-- JavaScript values as the class distinguishes them: binary data
(ArrayBuffer / view / Blob), functions (thunks handed to the reply helper,
modelled by their awaited outcome), error objects, and plain JSON data. -/
inductive JSValue where
  | undef
  | null
  | bool (b : Bool)
  | num (n : Int)
  | str (s : String)
  | binary (bytes : List Nat)
  | errObj (e : SWSError)
  | thunkOk (v : JSValue)
  | thunkErr (v : JSValue)
  deriving Repr, DecidableEq

/-- `payload instanceof ArrayBuffer || ArrayBuffer.isView(payload) || payload instanceof Blob`. -/
def isBinaryPayload : JSValue → Bool
  | JSValue.binary _ => true
  | _ => false

/-- The wire envelope `{cmd, payload, id}`.  `cmd`/`id` are `none` when the
JSON object lacks the field (JavaScript `undefined`); `JSON.stringify` omits
`undefined` members, so an absent payload is `JSValue.undef`. -/
structure Envelope where
  cmd : Option String
  payload : JSValue
  id : Option Nat
  deriving Repr, DecidableEq

/-- A frame handed to the transport `send` primitive: either a serialized
envelope (text) or raw binary data. -/
inductive Frame where
  | text (env : Envelope)
  | binary (v : JSValue)
  deriving Repr, DecidableEq

/-- One entry of the `#awaitingReply` map: the `resolve`/`reject` closure pair
created in `send`, identified by the promise it settles (`reqId`) and the
timeout handle it clears (`timerId`). -/
structure PendingEntry where
  reqId : Nat
  timerId : Nat
  deriving Repr, DecidableEq

/-- An armed reply-timeout: `setTimeout(reject, replyTimeout, err)` in `send`;
firing it rejects the promise `reqId` with `err`. -/
structure SendTimer where
  timerId : Nat
  reqId : Nat
  err : SWSError
  deriving Repr, DecidableEq

/-- Settlement state of a promise returned by `send`. -/
inductive PromiseState where
  | pending
  | resolved (v : JSValue)
  | rejected (v : JSValue)
  deriving Repr, DecidableEq

/-- Values appearing as arguments of host `setTimeout` calls and of `emit`
calls: numbers, strings, close-event objects and the bound emit function
`this.emit.bind(this)` (the only function value the source passes there). -/
inductive CBVal where
  | num (n : Int)
  | str (s : String)
  | closeEvt (code : Nat) (reason : String) (wasClean : Option Bool)
  | fnBoundEmit
  deriving Repr, DecidableEq

/-- A host `setTimeout(callback, delay, ...args)` call, recorded with the
arguments exactly as the source passes them (in positional order). -/
structure SetTimeoutCall where
  callback : CBVal
  delay : CBVal
  args : List CBVal
  deriving Repr, DecidableEq

/-- An event emission observable by subscribers. -/
structure Emission where
  event : String
  detail : Option CBVal
  deriving Repr, DecidableEq

/-- Host semantics of a scheduled `setTimeout` call: the callback is applied
to the trailing arguments only when it is a function value.  A non-function
callback delivers nothing (Node validates the callback and throws
`ERR_INVALID_ARG_TYPE` at the call; browsers string-coerce and eval it),
so no emission reaches subscribers in that case. -/
def deliverSetTimeout (c : SetTimeoutCall) : Option Emission :=
  match c.callback, c.args with
  | CBVal.fnBoundEmit, CBVal.str ev :: rest => some ⟨ev, rest.head?⟩
  | _, _ => none

/-- The whole mutable state of one `SimpleWebSocketAPI` instance, together
with the host bookkeeping it owns (armed timers, promise settlements). -/
structure Endpoint where
  ws : Option WS
  binaryType : String
  debugEnabled : Bool
  msgId : Nat
  awaitingReply : List (Nat × PendingEntry)
  awaitingBinaryReply : Option PendingEntry
  destroyOnClose : Bool
  destroyed : Bool
  nextTimerId : Nat
  timers : List SendTimer
  promises : List (Nat × PromiseState)
  deriving Repr, DecidableEq

/-- `this.#ws?.readyState`. -/
def wsReadyState (st : Endpoint) : Option Nat :=
  st.ws.map (fun w => w.readyState)

/-- Debug sink: `this.debug?.(text)` logs only when a debug sink is set. -/
def dbg (st : Endpoint) (msgs : List String) : List String :=
  if st.debugEnabled then msgs else []

/-- `Map.prototype.get` on the `#awaitingReply` map. -/
def mapGet (m : List (Nat × PendingEntry)) (i : Nat) : Option PendingEntry :=
  (m.find? (fun q => q.1 == i)).map (fun q => q.2)

/-- `Map.prototype.set` on the `#awaitingReply` map. -/
def mapSet (m : List (Nat × PendingEntry)) (i : Nat) (e : PendingEntry) :
    List (Nat × PendingEntry) :=
  if (m.find? (fun q => q.1 == i)).isSome then
    m.map (fun q => if q.1 == i then (i, e) else q)
  else m ++ [(i, e)]

/-- `Map.prototype.delete` on the `#awaitingReply` map. -/
def mapDelete (m : List (Nat × PendingEntry)) (i : Nat) :
    List (Nat × PendingEntry) :=
  m.filter (fun q => !(q.1 == i))

/-- Settling a promise: resolving or rejecting an already-settled promise is
a no-op (standard `Promise` semantics). -/
def settlePromise (ps : List (Nat × PromiseState)) (i : Nat) (s : PromiseState) :
    List (Nat × PromiseState) :=
  ps.map (fun q => if q.1 == i && q.2 == PromiseState.pending then (q.1, s) else q)

/-- Settlement state of the promise for request `i`. -/
def lookupPromise (ps : List (Nat × PromiseState)) (i : Nat) : Option PromiseState :=
  (ps.find? (fun q => q.1 == i)).map (fun q => q.2)

/-- `clearTimeout`: disarms the timer with the given handle. -/
def clearTimeout (timers : List SendTimer) (tid : Nat) : List SendTimer :=
  timers.filter (fun tm => !(tm.timerId == tid))

/-- JS `String.prototype.startsWith`, over the character sequence. -/
def jsStartsWith (s p : String) : Bool :=
  p.toList.isPrefixOf s.toList

/-- The reserved event names checked in `send`:
`['open','close','error','newListener','removeListener']`. -/
def reservedNames : List String :=
  ["open", "close", "error", "newListener", "removeListener"]

/-- A command name `send` accepts: a string, not internally prefixed, not a
reserved event name. -/
def validCmdStr (c : String) : Bool :=
  !(jsStartsWith c "int:") && !(reservedNames.contains c)

/-- The three internal reply tags dispatched by `#onMessage`. -/
def internalTags : List String :=
  ["int:reply", "int:errorReply", "int:binaryReply"]

/-- The timeout error built in `send`:
`new SimpleWebSocketAPI_Error(`+ template +`, 'REPLY_TIMEOUT')`. -/
def timeoutError (cmd : String) (replyTimeout : Nat) : SWSError :=
  mkError ("A reply for \"" ++ cmd ++
      "\" was not received within the replyTimeout period of " ++
      Nat.repr replyTimeout ++ " ms.") "REPLY_TIMEOUT"

/-- Outputs of one `send` call. -/
structure SendOut where
  frames : List Frame
  returnedPromise : Option Nat
  armedTimerId : Option Nat
  debugLogs : List String
  deriving Repr, DecidableEq

/-- `send(cmd, payload, replyTimeout)` (source lines 99-120 of the latest
revision).  The destroyed/not-open guard comes first and silently returns;
then the three synchronous validations throw; then the envelope is sent, the
timeout armed and the pending entry registered.  A thrown error is the
`Except.error` case and leaves the state untouched (the counter is bumped
only after validation). -/
def send (st : Endpoint) (cmd : JSValue) (payload : JSValue) (replyTimeout : Nat) :
    Except SWSError (Endpoint × SendOut) :=
  if st.destroyed = true ∨ wsReadyState st ≠ some OPEN then
    Except.ok (st, ⟨[], none, none, []⟩)
  else
    match cmd with
    | JSValue.str c =>
      if jsStartsWith c "int:" then
        Except.error (mkError "Only internal commands can start with \"int:\"." "INVALID_PARAMETER")
      else if reservedNames.contains c then
        Except.error (mkError ("A command can not be named " ++ c ++
          " because that\x27s an event emitted by this class.") "INVALID_PARAMETER")
      else
        Except.ok
          ({ st with
              msgId := st.msgId + 1,
              nextTimerId := st.nextTimerId + 1,
              timers := st.timers ++ [⟨st.nextTimerId, st.msgId, timeoutError c replyTimeout⟩],
              awaitingReply := mapSet st.awaitingReply st.msgId ⟨st.msgId, st.nextTimerId⟩,
              promises := st.promises ++ [(st.msgId, PromiseState.pending)] },
            ⟨[Frame.text ⟨some c, payload, some st.msgId⟩], some st.msgId,
              some st.nextTimerId, dbg st ["outgoing"]⟩)
    | _ => Except.error (mkError "cmd must be a string." "INVALID_PARAMETER")

/-- Firing an armed reply-timeout: the host calls the raw promise `reject`
with the stored error (the entry in `#awaitingReply` is NOT touched and no
other timer is cleared — the callback is just `reject`). -/
def fireTimer (st : Endpoint) (tid : Nat) : Endpoint :=
  match st.timers.find? (fun tm => tm.timerId == tid) with
  | none => st
  | some tm =>
    { st with
        timers := clearTimeout st.timers tid,
        promises := settlePromise st.promises tm.reqId
          (PromiseState.rejected (JSValue.errObj tm.err)) }

/-- `#reply(id, payload, isError)` (source lines 122-132): silent return when
destroyed or not open; a binary error reply throws; a binary reply sends the
marker envelope followed by the raw frame; otherwise one reply/errorReply
envelope.  Returns the frames sent and the debug logs. -/
def reply (st : Endpoint) (id : Option Nat) (payload : JSValue) (isError : Bool) :
    Except SWSError (List Frame × List String) :=
  if st.destroyed = true ∨ wsReadyState st ≠ some OPEN then
    Except.ok ([], [])
  else
    let logs := dbg st ["outgoing"]
    if isBinaryPayload payload then
      if isError then
        Except.error (mkError "Can\x27t send a binary error reply." "INVALID_PARAMETER")
      else
        Except.ok ([Frame.text ⟨some "int:binaryReply", JSValue.undef, id⟩,
                    Frame.binary payload], logs)
    else
      Except.ok ([Frame.text ⟨some (if isError then "int:errorReply" else "int:reply"),
                    payload, id⟩], logs)

/-- Outputs of one call of the reply helper handed to command handlers. -/
structure HelperOut where
  frames : List Frame
  debugLogs : List String
  helperRejected : Option SWSError
  deriving Repr, DecidableEq

/-- The reply helper `#replyFunc(id)` returns (source lines 134-146): an async
function that awaits the payload (calling it first when it is a function) and
forwards to `#reply`; ANY failure — a thunk throw or a throw out of `#reply`
itself — is caught and converted into `#reply(id, error, true)`.  Only a
failure of that second `#reply` call rejects the helper's own promise. -/
def replyFunc (st : Endpoint) (id : Option Nat) (payload : JSValue) (isError : Bool) :
    HelperOut :=
  let attempt : Except JSValue (List Frame × List String) :=
    match payload with
    | JSValue.thunkOk v => (reply st id v isError).mapError JSValue.errObj
    | JSValue.thunkErr e => Except.error e
    | v => (reply st id v isError).mapError JSValue.errObj
  match attempt with
  | Except.ok (fs, ls) => ⟨fs, ls, none⟩
  | Except.error e =>
    match reply st id e true with
    | Except.ok (fs, ls) => ⟨fs, ls, none⟩
    | Except.error e2 => ⟨[], [], some e2⟩

/-- Outcome of `JSON.parse` on an incoming text frame (parsing itself is an
external collaborator assumed correct). -/
inductive ParseOutcome where
  | failed (msg : String)
  | parsed (env : Envelope)
  deriving Repr, DecidableEq

/-- An incoming frame as `#onMessage` receives it. -/
inductive WireIn where
  | binary (v : JSValue)
  | text (outcome : ParseOutcome)
  deriving Repr, DecidableEq

/-- Uncaught exceptions escaping `#onMessage`. -/
inductive RunErr where
  | jsonParseError (msg : String)
  | typeError (msg : String)
  | thrown (e : SWSError)
  deriving Repr, DecidableEq

/-- The TypeError raised by `const {resolve, reject} = undefined`. -/
def destructureErrMsg : String :=
  "Cannot destructure property resolve of undefined"

/-- Observable outputs of one `#onMessage` dispatch. -/
structure MsgOut where
  frames : List Frame
  emits : List (String × Option Nat × JSValue)
  debugLogs : List String
  deriving Repr, DecidableEq

/-- Empty output. -/
def emptyMsgOut : MsgOut := ⟨[], [], []⟩

/-- `#onMessage({data})` (source lines 148-185).  Notes kept faithful to the
source: the guarded `else` branch logging an un-awaited reply is unreachable,
because `this.#awaitingReply.get(id)` returns `undefined` for an unknown id
and the destructuring `const {resolve, reject} = undefined` throws a
TypeError first (modelled by the `none` case below); nothing is mutated
before either throw, so an error leaves the state unchanged. -/
def onMessage (st : Endpoint) (listened : List String) (data : WireIn) :
    Except RunErr (Endpoint × MsgOut) :=
  if st.destroyed = true then Except.ok (st, emptyMsgOut)
  else
    match data with
    | WireIn.binary v =>
      match st.awaitingBinaryReply with
      | some entry =>
        Except.ok
          ({ st with
              awaitingBinaryReply := none,
              timers := clearTimeout st.timers entry.timerId,
              promises := settlePromise st.promises entry.reqId (PromiseState.resolved v) },
            ⟨[], [], dbg st ["incoming binary"]⟩)
      | none => Except.ok (st, ⟨[], [], dbg st ["Un-awaited binary payload."]⟩)
    | WireIn.text outcome =>
      match outcome with
      | ParseOutcome.failed e => Except.error (RunErr.jsonParseError e)
      | ParseOutcome.parsed env =>
        let logs0 := dbg st ["incoming"]
        match env.cmd with
        | none => Except.ok (st, ⟨[], [], logs0 ++ dbg st ["Invalid message received"]⟩)
        | some c =>
          if internalTags.contains c then
            match env.id.bind (fun i => (mapGet st.awaitingReply i).map (fun e => (i, e))) with
            | none => Except.error (RunErr.typeError destructureErrMsg)
            | some (i, entry) =>
              let stA :=
                if c == "int:reply" then
                  { st with
                      timers := clearTimeout st.timers entry.timerId,
                      promises := settlePromise st.promises entry.reqId
                        (PromiseState.resolved env.payload) }
                else if c == "int:errorReply" then
                  { st with
                      timers := clearTimeout st.timers entry.timerId,
                      promises := settlePromise st.promises entry.reqId
                        (PromiseState.rejected env.payload) }
                else
                  { st with awaitingBinaryReply := some entry }
              Except.ok ({ stA with awaitingReply := mapDelete stA.awaitingReply i },
                ⟨[], [], logs0⟩)
          else
            if listened.contains c then
              Except.ok (st, ⟨[], [(c, env.id, env.payload)], logs0⟩)
            else
              match reply st env.id (JSValue.str ("No listener for command: " ++ c)) true with
              | Except.ok (fs, ls) => Except.ok (st, ⟨fs, [], logs0 ++ ls⟩)
              | Except.error e => Except.error (RunErr.thrown e)

/-- Outputs of `changeWebSocket`. -/
structure ChangeOut where
  scheduled : List SetTimeoutCall
  removedOldListeners : Bool
  addedListeners : Bool
  deriving Repr, DecidableEq

/-- The synthetic close event object `{code: 4001, reason: 'Socket already closed.'}`. -/
def closeEvent4001 : CBVal :=
  CBVal.closeEvt 4001 "Socket already closed." none

/-- `changeWebSocket(newWebSocket)` (source lines 68-85).  The two `setTimeout`
calls are recorded with the arguments in the order the source passes them:
`setTimeout(0, this.emit.bind(this), 'close', {...})` — i.e. the number `0`
is in the callback position and the bound emit function in the delay
position. -/
def changeWebSocket (st : Endpoint) (newWS : WS) : Endpoint × ChangeOut :=
  if st.destroyed = true then (st, ⟨[], false, false⟩)
  else
    let removed := st.ws.isSome
    let st1 := { st with ws := some newWS }
    if newWS.readyState = CLOSED then
      (st1, ⟨[⟨CBVal.num 0, CBVal.fnBoundEmit, [CBVal.str "close", closeEvent4001]⟩],
        removed, false⟩)
    else
      let st2 := { st1 with ws := some { newWS with binaryType := st.binaryType } }
      if newWS.readyState = OPEN then
        (st2, ⟨[⟨CBVal.num 0, CBVal.fnBoundEmit, [CBVal.str "open"]⟩], removed, true⟩)
      else (st2, ⟨[], removed, true⟩)

/-- Outputs of `destroy`. -/
structure DestroyOut where
  closedWs : Bool
  emits : List Emission
  removedAllListeners : Bool
  deriving Repr, DecidableEq

/-- `destroy()` (source lines 88-97): idempotent; marks destroyed, clears the
pending-request map (without clearing any armed timeout), closes a non-closed
transport and emits the code-4000 close, and removes the endpoint's own
listeners.  The transport's own state transition after `close()` happens in
the external transport. -/
def destroy (st : Endpoint) : Endpoint × DestroyOut :=
  if st.destroyed = true then (st, ⟨false, [], false⟩)
  else
    let st1 := { st with destroyed := true, awaitingReply := [] }
    match st.ws with
    | some w =>
      if w.readyState ≠ CLOSED then
        (st1, ⟨true,
          [⟨"close", some (CBVal.closeEvt 4000 "SimpleWebSocketAPI destroy call" (some true))⟩],
          true⟩)
      else (st1, ⟨false, [], true⟩)
    | none => (st1, ⟨false, [], true⟩)

/-- Events that can hit a live endpoint: a timer firing, a frame arriving
(with the current set of subscribed event names), and the public calls. -/
inductive Event where
  | fireTimer (tid : Nat)
  | recv (listened : List String) (data : WireIn)
  | callSend (cmd : JSValue) (payload : JSValue) (replyTimeout : Nat)
  | callDestroy
  | callChangeWebSocket (w : WS)
  deriving Repr, DecidableEq

/-- State transition of one event.  An uncaught exception out of a handler
leaves the state as it was (nothing is mutated before the throws in
`#onMessage`, and `send` bumps its counter only after validation). -/
def stepEv (st : Endpoint) (e : Event) : Endpoint :=
  match e with
  | Event.fireTimer tid => fireTimer st tid
  | Event.recv listened data =>
    match onMessage st listened data with
    | Except.ok (st1, _) => st1
    | Except.error _ => st
  | Event.callSend c p t =>
    match send st c p t with
    | Except.ok (st1, _) => st1
    | Except.error _ => st
  | Event.callDestroy => (destroy st).1
  | Event.callChangeWebSocket w => (changeWebSocket st w).1

/-- An open transport. -/
def wsOpenT : WS := ⟨OPEN, "arraybuffer"⟩

/-- A closed transport. -/
def wsClosedT : WS := ⟨CLOSED, "arraybuffer"⟩

/-- A freshly constructed endpoint before any transport is bound
(`#msgId = 0`, empty `#awaitingReply`, not destroyed). -/
def freshEndpoint : Endpoint :=
  ⟨none, "arraybuffer", false, 0, [], none, false, false, 0, [], []⟩

/-- A fresh endpoint bound to an open transport. -/
def openEndpoint : Endpoint :=
  ⟨some wsOpenT, "arraybuffer", false, 0, [], none, false, false, 0, [], []⟩

/-- A fresh endpoint whose transport has closed under it. -/
def closedWsEndpoint : Endpoint :=
  ⟨some wsClosedT, "arraybuffer", false, 0, [], none, false, false, 0, [], []⟩

/-- An endpoint after `destroy()`. -/
def destroyedEndpoint : Endpoint := (destroy openEndpoint).1

/-- The state right after one successful `send("ping", null, 50)` on a fresh
open endpoint (request id 0 pending, timer 0 armed). -/
def afterPingSend : Endpoint :=
  match send openEndpoint (JSValue.str "ping") JSValue.null 50 with
  | Except.ok (st, _) => st
  | Except.error _ => openEndpoint

/-- An endpoint with one pending request (id 0, timer 0, timeout error of
`send("a", _, 50)`), one armed timer and one unsettled promise — the shape
destroy-with-pending starts from. -/
def pendingEndpoint : Endpoint :=
  ⟨some wsOpenT, "arraybuffer", false, 1, [(0, ⟨0, 0⟩)], none, false, false, 1,
    [⟨0, 0, timeoutError "a" 50⟩], [(0, PromiseState.pending)]⟩

/-- Folding a list of `send(cmd, payload)` calls (default 2000 ms timeout),
collecting the frames they transmit in order; a call that throws transmits
nothing. -/
def runSends (st : Endpoint) (calls : List (String × JSValue)) :
    Endpoint × List Frame :=
  match calls with
  | [] => (st, [])
  | (c, p) :: rest =>
    match send st (JSValue.str c) p 2000 with
    | Except.ok (st1, out) =>
      let r := runSends st1 rest
      (r.1, out.frames ++ r.2)
    | Except.error _ => runSends st rest

/-- The request ids carried by the text frames of a frame list. -/
def sentIds (fs : List Frame) : List Nat :=
  fs.filterMap (fun f =>
    match f with
    | Frame.text e => e.id
    | Frame.binary _ => none)

/-- The id sequence `s, s+1, ..., s+n-1`. -/
def idRange (s n : Nat) : List Nat :=
  match n with
  | 0 => []
  | Nat.succ m => s :: idRange (s + 1) m

/-- Post-destroy configuration, first phase: promise `i` still pending, its
reply-timeout `⟨tid, i, err⟩` still armed, and no other armed timer can
settle promise `i` or answers to handle `tid`. -/
def C10Left (i tid : Nat) (err : SWSError) (st : Endpoint) : Prop :=
  st.destroyed = true ∧
  lookupPromise st.promises i = some PromiseState.pending ∧
  SendTimer.mk tid i err ∈ st.timers ∧
  (∀ tm ∈ st.timers, (tm.reqId = i ∨ tm.timerId = tid) → tm = SendTimer.mk tid i err)

/-- Post-destroy configuration, second phase: the timeout has fired, promise
`i` is rejected with the timeout error, and no armed timer touches it. -/
def C10Right (i tid : Nat) (err : SWSError) (st : Endpoint) : Prop :=
  st.destroyed = true ∧
  lookupPromise st.promises i = some (PromiseState.rejected (JSValue.errObj err)) ∧
  (∀ tm ∈ st.timers, tm.reqId ≠ i ∧ tm.timerId ≠ tid)

/-- The `setTimeout` call `changeWebSocket` issues for an already-closed
transport, arguments in source order. -/
def scheduledCloseCall : SetTimeoutCall :=
  ⟨CBVal.num 0, CBVal.fnBoundEmit, [CBVal.str "close", closeEvent4001]⟩

/-- The `setTimeout` call `changeWebSocket` issues for an already-open
transport, arguments in source order. -/
def scheduledOpenCall : SetTimeoutCall :=
  ⟨CBVal.num 0, CBVal.fnBoundEmit, [CBVal.str "open"]⟩

/-- The call the surrounding code evidently intended: callback and delay in
the positions the host API specifies. -/
def intendedCloseCall : SetTimeoutCall :=
  ⟨CBVal.fnBoundEmit, CBVal.num 0, [CBVal.str "close", closeEvent4001]⟩

/-- Whether a `send` argument passes all three synchronous validations. -/
def validCmd : JSValue → Bool
  | JSValue.str c => validCmdStr c
  | _ => false

/-- Settling a pending promise makes its lookup return the new state. -/
theorem lookupPromise_settle_self (ps : List (Nat × PromiseState)) (i : Nat)
    (s : PromiseState) (h : lookupPromise ps i = some PromiseState.pending) :
    lookupPromise (settlePromise ps i s) i = some s := by
  induction ps with
  | nil => simp [lookupPromise, List.find?] at h
  | cons q rest ih =>
    by_cases hq : (q.1 == i) = true
    · have hq2 : q.2 = PromiseState.pending := by
        simpa [lookupPromise, List.find?, hq] using h
      simp [settlePromise, lookupPromise, List.find?, hq, hq2]
    · have h' : lookupPromise rest i = some PromiseState.pending := by
        simpa [lookupPromise, List.find?, hq] using h
      have hrec := ih h'
      by_cases hc : (q.1 == i && q.2 == PromiseState.pending) = true
      · simp [hq] at hc
      · simpa [settlePromise, lookupPromise, List.find?, hq, hc]
          using hrec

/-- Settling promise `j` does not move the lookup of a different promise `i`. -/
theorem lookupPromise_settle_other (ps : List (Nat × PromiseState)) (i j : Nat)
    (s : PromiseState) (hij : j ≠ i) :
    lookupPromise (settlePromise ps j s) i = lookupPromise ps i := by
  induction ps with
  | nil => simp [settlePromise]
  | cons q rest ih =>
    by_cases hq : (q.1 == i) = true
    · have hq1 : q.1 = i := by simpa using hq
      have hqj : (q.1 == j) = false := by
        simp [hq1]
        exact fun hh => hij hh.symm
      simp [settlePromise, lookupPromise, List.find?, hq, hqj]
    · by_cases hc : (q.1 == j && q.2 == PromiseState.pending) = true
      · simpa [settlePromise, lookupPromise, List.find?, hq, hc] using ih
      · simpa [settlePromise, lookupPromise, List.find?, hq, hc] using ih

/-- `find?` skips a first block in which nothing matches. -/
theorem find?_append_of_none {α : Type} (p : α → Bool) (l1 l2 : List α)
    (h : l1.find? p = none) : (l1 ++ l2).find? p = l2.find? p := by
  induction l1 with
  | nil => simp
  | cons a rest ih =>
    have hpa : p a = false := by
      cases hpa : p a
      · rfl
      · simp [List.find?, hpa] at h
    have h' : rest.find? p = none := by simpa [List.find?, hpa] using h
    simp [List.find?, hpa, ih h']

/-- Registering a fresh promise at the end of the list makes it findable. -/
theorem lookupPromise_append (ps : List (Nat × PromiseState)) (i : Nat)
    (s : PromiseState) (h : lookupPromise ps i = none) :
    lookupPromise (ps ++ [(i, s)]) i = some s := by
  have hf : ps.find? (fun q => q.1 == i) = none := by
    cases hf : ps.find? (fun q => q.1 == i) with
    | none => rfl
    | some q => rw [lookupPromise, hf] at h; simp at h
  rw [lookupPromise, find?_append_of_none _ _ _ hf]
  simp [List.find?]

/-- After `destroy`, `send` is a silent no-op. -/
theorem send_destroyed (st : Endpoint) (c p : JSValue) (t : Nat)
    (h : st.destroyed = true) :
    send st c p t = Except.ok (st, ⟨[], none, none, []⟩) := by
  simp [send, h]

/-- After `destroy`, `#onMessage` returns immediately. -/
theorem onMessage_destroyed (st : Endpoint) (listened : List String) (d : WireIn)
    (h : st.destroyed = true) :
    onMessage st listened d = Except.ok (st, emptyMsgOut) := by
  simp [onMessage, h]

/-- `destroy` is idempotent. -/
theorem destroy_destroyed (st : Endpoint) (h : st.destroyed = true) :
    destroy st = (st, ⟨false, [], false⟩) := by
  simp [destroy, h]

/-- After `destroy`, `changeWebSocket` is a no-op. -/
theorem changeWebSocket_destroyed (st : Endpoint) (w : WS) (h : st.destroyed = true) :
    changeWebSocket st w = (st, ⟨[], false, false⟩) := by
  simp [changeWebSocket, h]

/-- On a destroyed endpoint every event other than a timer firing leaves the
state untouched. -/
theorem stepEv_destroyed_other (st : Endpoint) (e : Event) (h : st.destroyed = true)
    (hne : ∀ tid, e ≠ Event.fireTimer tid) : stepEv st e = st := by
  cases e with
  | fireTimer tid => exact absurd rfl (hne tid)
  | recv ls d => simp [stepEv, onMessage_destroyed st ls d h]
  | callSend c p t => simp [stepEv, send_destroyed st c p t h]
  | callDestroy => simp [stepEv, destroy_destroyed st h]
  | callChangeWebSocket w => simp [stepEv, changeWebSocket_destroyed st w h]

/-- The state-and-output behaviour of a validated `send` on a usable endpoint. -/
theorem send_success (st : Endpoint) (c : String) (p : JSValue) (t : Nat)
    (hd : st.destroyed = false) (ho : wsReadyState st = some OPEN)
    (h1 : jsStartsWith c "int:" = false) (h2 : reservedNames.contains c = false) :
    send st (JSValue.str c) p t =
      Except.ok
        ({ st with
            msgId := st.msgId + 1,
            nextTimerId := st.nextTimerId + 1,
            timers := st.timers ++ [⟨st.nextTimerId, st.msgId, timeoutError c t⟩],
            awaitingReply := mapSet st.awaitingReply st.msgId ⟨st.msgId, st.nextTimerId⟩,
            promises := st.promises ++ [(st.msgId, PromiseState.pending)] },
          ⟨[Frame.text ⟨some c, p, some st.msgId⟩], some st.msgId,
            some st.nextTimerId, dbg st ["outgoing"]⟩) := by
  have h2m : c ∉ reservedNames := by simpa using h2
  simp [send, hd, ho, h1, h2m]

/-- `destroy` on a live endpoint only flips the flag and clears the map. -/
theorem destroy_state (st : Endpoint) (h : st.destroyed = false) :
    (destroy st).1 = { st with destroyed := true, awaitingReply := [] } := by
  cases hws : st.ws with
  | none => simp [destroy, h, hws]
  | some w =>
    by_cases hr : w.readyState = CLOSED <;> simp [destroy, h, hws, hr]

/-- Firing an unknown timer handle does nothing. -/
theorem fireTimer_not_found (st : Endpoint) (tid : Nat)
    (h : st.timers.find? (fun tm => tm.timerId == tid) = none) :
    fireTimer st tid = st := by
  simp [fireTimer, h]

/-- Firing a found timer rejects its promise and disarms it. -/
theorem fireTimer_found (st : Endpoint) (tid : Nat) (tm : SendTimer)
    (h : st.timers.find? (fun t => t.timerId == tid) = some tm) :
    fireTimer st tid =
      { st with
          timers := clearTimeout st.timers tid,
          promises := settlePromise st.promises tm.reqId
            (PromiseState.rejected (JSValue.errObj tm.err)) } := by
  simp [fireTimer, h]

/-- Rebinding the transport never touches the message id counter. -/
theorem changeWebSocket_msgId (st : Endpoint) (w : WS) :
    ((changeWebSocket st w).1).msgId = st.msgId := by
  simp only [changeWebSocket]
  split
  · rfl
  · split
    · rfl
    · split <;> rfl

/-- Destroying never touches the message id counter. -/
theorem destroy_msgId (st : Endpoint) : ((destroy st).1).msgId = st.msgId := by
  by_cases h : st.destroyed = true
  · simp [destroy_destroyed st h]
  · rw [destroy_state st (by simpa using h)]

/-- Every element of `idRange s n` is at least `s`. -/
theorem idRange_ge (n : Nat) : ∀ s : Nat, ∀ x ∈ idRange s n, s ≤ x := by
  induction n with
  | zero => intro s x hx; simp [idRange] at hx
  | succ m ih =>
    intro s x hx
    simp [idRange] at hx
    cases hx with
    | inl h => omega
    | inr h => have := ih (s + 1) x h; omega

/-- `idRange` is strictly increasing. -/
theorem idRange_pairwise (n : Nat) :
    ∀ s : Nat, List.Pairwise (fun a b => a < b) (idRange s n) := by
  induction n with
  | zero => intro s; simp [idRange]
  | succ m ih =>
    intro s
    simp only [idRange, List.pairwise_cons]
    exact ⟨fun x hx => by have := idRange_ge m (s + 1) x hx; omega, ih (s + 1)⟩

/-- Any event other than the firing of timer `tid` preserves the first
post-destroy phase. -/
theorem c10_left_step (i tid : Nat) (err : SWSError) (st : Endpoint) (e : Event)
    (hL : C10Left i tid err st) (hne : e ≠ Event.fireTimer tid) :
    C10Left i tid err (stepEv st e) := by
  obtain ⟨hd, hp, hm, hu⟩ := hL
  cases e with
  | fireTimer tid' =>
    have htid : tid' ≠ tid := fun hh => hne (by rw [hh])
    simp only [stepEv]
    cases hfind : st.timers.find? (fun tm => tm.timerId == tid') with
    | none =>
      rw [fireTimer_not_found st tid' hfind]
      exact ⟨hd, hp, hm, hu⟩
    | some tm =>
      have hmem : tm ∈ st.timers := List.mem_of_find?_eq_some hfind
      have hid : tm.timerId = tid' := by simpa using List.find?_some hfind
      have hreq : tm.reqId ≠ i := by
        intro hh
        have heq := hu tm hmem (Or.inl hh)
        rw [heq] at hid
        exact htid hid.symm
      rw [fireTimer_found st tid' tm hfind]
      refine ⟨hd, ?_, ?_, ?_⟩
      · rw [lookupPromise_settle_other st.promises i tm.reqId _ hreq]
        exact hp
      · refine List.mem_filter.mpr ⟨hm, ?_⟩
        simp
        exact fun hh => htid hh.symm
      · intro tm' hmem' hcond
        exact hu tm' (List.mem_filter.mp hmem').1 hcond
  | recv ls d =>
    rw [stepEv_destroyed_other st _ hd (fun tid h => Event.noConfusion h)]
    exact ⟨hd, hp, hm, hu⟩
  | callSend c p t =>
    rw [stepEv_destroyed_other st _ hd (fun tid h => Event.noConfusion h)]
    exact ⟨hd, hp, hm, hu⟩
  | callDestroy =>
    rw [stepEv_destroyed_other st _ hd (fun tid h => Event.noConfusion h)]
    exact ⟨hd, hp, hm, hu⟩
  | callChangeWebSocket w =>
    rw [stepEv_destroyed_other st _ hd (fun tid h => Event.noConfusion h)]
    exact ⟨hd, hp, hm, hu⟩

/-- Firing timer `tid` in the first phase rejects promise `i` with the
timeout error and moves to the second phase. -/
theorem c10_left_fire (i tid : Nat) (err : SWSError) (st : Endpoint)
    (hL : C10Left i tid err st) :
    C10Right i tid err (stepEv st (Event.fireTimer tid)) := by
  obtain ⟨hd, hp, hm, hu⟩ := hL
  simp only [stepEv]
  cases hfind : st.timers.find? (fun tm => tm.timerId == tid) with
  | none =>
    exfalso
    have := List.find?_eq_none.mp hfind _ hm
    simp at this
  | some tm =>
    have hmem : tm ∈ st.timers := List.mem_of_find?_eq_some hfind
    have hid : tm.timerId = tid := by simpa using List.find?_some hfind
    have htm : tm = SendTimer.mk tid i err := hu tm hmem (Or.inr hid)
    subst htm
    rw [fireTimer_found st tid _ hfind]
    refine ⟨hd, ?_, ?_⟩
    · exact lookupPromise_settle_self st.promises i _ hp
    · intro tm' hmem'
      have h1 := (List.mem_filter.mp hmem').1
      have h2 := (List.mem_filter.mp hmem').2
      have hneq : tm'.timerId ≠ tid := by simpa using h2
      refine ⟨?_, hneq⟩
      intro hh
      have := hu tm' h1 (Or.inl hh)
      rw [this] at hneq
      exact hneq rfl

/-- The second phase is absorbing: every event preserves it. -/
theorem c10_right_step (i tid : Nat) (err : SWSError) (st : Endpoint) (e : Event)
    (hR : C10Right i tid err st) :
    C10Right i tid err (stepEv st e) := by
  obtain ⟨hd, hp, hq⟩ := hR
  cases e with
  | fireTimer tid' =>
    simp only [stepEv]
    cases hfind : st.timers.find? (fun tm => tm.timerId == tid') with
    | none =>
      rw [fireTimer_not_found st tid' hfind]
      exact ⟨hd, hp, hq⟩
    | some tm =>
      have hmem : tm ∈ st.timers := List.mem_of_find?_eq_some hfind
      have hreq : tm.reqId ≠ i := (hq tm hmem).1
      rw [fireTimer_found st tid' tm hfind]
      refine ⟨hd, ?_, ?_⟩
      · rw [lookupPromise_settle_other st.promises i tm.reqId _ hreq]
        exact hp
      · intro tm' hmem'
        exact hq tm' (List.mem_filter.mp hmem').1
  | recv ls d =>
    rw [stepEv_destroyed_other st _ hd (fun tid h => Event.noConfusion h)]
    exact ⟨hd, hp, hq⟩
  | callSend c p t =>
    rw [stepEv_destroyed_other st _ hd (fun tid h => Event.noConfusion h)]
    exact ⟨hd, hp, hq⟩
  | callDestroy =>
    rw [stepEv_destroyed_other st _ hd (fun tid h => Event.noConfusion h)]
    exact ⟨hd, hp, hq⟩
  | callChangeWebSocket w =>
    rw [stepEv_destroyed_other st _ hd (fun tid h => Event.noConfusion h)]
    exact ⟨hd, hp, hq⟩

/-- Folding any events over the second phase stays in the second phase. -/
theorem c10_right_fold (i tid : Nat) (err : SWSError) (evs : List Event) :
    ∀ st : Endpoint, C10Right i tid err st →
      C10Right i tid err (List.foldl stepEv st evs) := by
  induction evs with
  | nil => intro st h; simpa using h
  | cons e rest ih =>
    intro st h
    simpa using ih _ (c10_right_step i tid err st e h)

/-- While timer `tid` never fires, the promise stays pending. -/
theorem c10_left_fold_nofire (i tid : Nat) (err : SWSError) (evs : List Event) :
    ∀ st : Endpoint, C10Left i tid err st → Event.fireTimer tid ∉ evs →
      C10Left i tid err (List.foldl stepEv st evs) := by
  induction evs with
  | nil => intro st h _; simpa using h
  | cons e rest ih =>
    intro st h hnm
    have hne : e ≠ Event.fireTimer tid := by
      intro hh
      exact hnm (by rw [hh]; exact List.Mem.head _)
    have hnm' : Event.fireTimer tid ∉ rest := fun hh => hnm (List.Mem.tail _ hh)
    simpa using ih _ (c10_left_step i tid err st e h hne) hnm'

/-- Once timer `tid` fires somewhere in the trace, the promise ends rejected
with the timeout error. -/
theorem c10_left_fold_fire (i tid : Nat) (err : SWSError) (evs : List Event) :
    ∀ st : Endpoint, C10Left i tid err st → Event.fireTimer tid ∈ evs →
      C10Right i tid err (List.foldl stepEv st evs) := by
  induction evs with
  | nil => intro st _ h; cases h
  | cons e rest ih =>
    intro st hL hm
    by_cases he : e = Event.fireTimer tid
    · subst he
      have hstep := c10_left_fire i tid err st hL
      simpa using c10_right_fold i tid err rest _ hstep
    · have hm' : Event.fireTimer tid ∈ rest := by
        cases hm with
        | head => exact absurd rfl he
        | tail _ hh => exact hh
      simpa using ih _ (c10_left_step i tid err st e hL he) hm'

/-- A run of validated `send` calls on an open endpoint transmits exactly one
frame per call, with ids `msgId, msgId+1, ...`, and advances the counter by
the number of calls. -/
theorem runSends_spec (calls : List (String × JSValue)) :
    ∀ st : Endpoint, st.destroyed = false → wsReadyState st = some OPEN →
      (∀ cp ∈ calls, validCmdStr cp.1 = true) →
      (runSends st calls).2.length = calls.length ∧
      sentIds (runSends st calls).2 = idRange st.msgId calls.length ∧
      (runSends st calls).1.msgId = st.msgId + calls.length := by
  induction calls with
  | nil => intro st _ _ _; simp [runSends, sentIds, idRange]
  | cons cp rest ih =>
    intro st hd ho hv
    obtain ⟨c, p⟩ := cp
    have hvc : validCmdStr c = true := hv (c, p) (List.Mem.head _)
    have hsplit : jsStartsWith c "int:" = false ∧ reservedNames.contains c = false := by
      constructor
      · cases hj : jsStartsWith c "int:"
        · rfl
        · rw [validCmdStr, hj] at hvc; simp at hvc
      · cases hr : reservedNames.contains c
        · rfl
        · rw [validCmdStr, hr] at hvc; simp at hvc
    have hsend := send_success st c p 2000 hd ho hsplit.1 hsplit.2
    have hrec := ih
      { st with
          msgId := st.msgId + 1,
          nextTimerId := st.nextTimerId + 1,
          timers := st.timers ++ [⟨st.nextTimerId, st.msgId, timeoutError c 2000⟩],
          awaitingReply := mapSet st.awaitingReply st.msgId ⟨st.msgId, st.nextTimerId⟩,
          promises := st.promises ++ [(st.msgId, PromiseState.pending)] }
      hd ho (fun cp hcp => hv cp (List.Mem.tail _ hcp))
    rw [runSends, hsend]
    refine ⟨?_, ?_, ?_⟩
    · simp [hrec.1]
    · simp only [sentIds, List.filterMap_append] at hrec ⊢
      simp [hrec.2.1, idRange]
    · have hm := hrec.2.2
      dsimp only at hm
      simp only [hm, List.length_cons]
      omega

/-- Claim C1: on the code as written, an incoming `int:reply` /
`int:errorReply` / `int:binaryReply` whose id is NOT a key of the
pending-request map does not merely log — the dispatcher destructures the
`undefined` returned by `Map.get` and throws a TypeError (the guarded debug
branch is dead code).  Evaluated at a fresh open endpoint with an empty
pending map for all three tags. -/
theorem c1_unknown_id_reply_throws :
    onMessage openEndpoint []
        (WireIn.text (ParseOutcome.parsed ⟨some "int:reply", JSValue.null, some 0⟩)) =
      Except.error (RunErr.typeError destructureErrMsg) ∧
    onMessage openEndpoint []
        (WireIn.text (ParseOutcome.parsed ⟨some "int:errorReply", JSValue.str "boom", some 7⟩)) =
      Except.error (RunErr.typeError destructureErrMsg) ∧
    onMessage openEndpoint []
        (WireIn.text (ParseOutcome.parsed ⟨some "int:binaryReply", JSValue.undef, some 3⟩)) =
      Except.error (RunErr.typeError destructureErrMsg) := by
  refine ⟨rfl, rfl, rfl⟩

/-- Claim C2: binding an already-closed transport schedules
`setTimeout(0, emitBound, ...)` — the number `0` sits in the callback
position and the bound emit function in the delay position, so the host
timer never invokes the emit: the synthetic `close` (and likewise `open`)
notification is never delivered, while the argument-swapped call would
deliver it. -/
theorem c2_synthetic_notifications_never_delivered :
    (changeWebSocket freshEndpoint wsClosedT).2.scheduled = [scheduledCloseCall] ∧
    deliverSetTimeout scheduledCloseCall = none ∧
    deliverSetTimeout intendedCloseCall = some ⟨"close", some closeEvent4001⟩ ∧
    (changeWebSocket freshEndpoint wsOpenT).2.scheduled = [scheduledOpenCall] ∧
    deliverSetTimeout scheduledOpenCall = none := by
  refine ⟨rfl, rfl, rfl, rfl, rfl⟩

/-- Claim C3 counterexample: with the transport closed and `cmd` not even a
string, `send` silently returns (no configuration error); same with a
destroyed endpoint and an internally prefixed command. -/
theorem c3_counterexample :
    send closedWsEndpoint (JSValue.num 42) JSValue.null 2000 =
      Except.ok (closedWsEndpoint, ⟨[], none, none, []⟩) ∧
    send destroyedEndpoint (JSValue.str "int:x") JSValue.null 2000 =
      Except.ok (destroyedEndpoint, ⟨[], none, none, []⟩) := by
  refine ⟨rfl, rfl⟩

/-- Claim C3 (amended): the three synchronous validations run — and raise a
configuration error before any frame is sent — only when the endpoint is not
destroyed and the transport is open; when destroyed or not open, `send` is a
silent no-op that skips validation entirely. -/
theorem c3_validation_gated_on_usable_state (st : Endpoint)
    (cmd payload : JSValue) (t : Nat) :
    (st.destroyed = false → wsReadyState st = some OPEN → validCmd cmd = false →
      ∃ e : SWSError, send st cmd payload t = Except.error e) ∧
    (st.destroyed = true ∨ wsReadyState st ≠ some OPEN →
      send st cmd payload t = Except.ok (st, ⟨[], none, none, []⟩)) := by
  constructor
  · intro hd ho hv
    cases cmd with
    | str c =>
      have hv' : validCmdStr c = false := by simpa [validCmd] using hv
      by_cases hj : jsStartsWith c "int:" = true
      · exact ⟨mkError "Only internal commands can start with \"int:\"." "INVALID_PARAMETER",
          by simp [send, hd, ho, hj]⟩
      · have hj' : jsStartsWith c "int:" = false := by
          cases hjj : jsStartsWith c "int:"
          · rfl
          · exact absurd hjj hj
        have hb : reservedNames.contains c = true := by
          cases hbb : reservedNames.contains c
          · rw [validCmdStr, hj', hbb] at hv'; simp at hv'
          · rfl
        have hbm : c ∈ reservedNames := by simpa using hb
        exact ⟨mkError ("A command can not be named " ++ c ++
            " because that\x27s an event emitted by this class.") "INVALID_PARAMETER",
          by simp [send, hd, ho, hj', hbm]⟩
    | undef =>
      exact ⟨mkError "cmd must be a string." "INVALID_PARAMETER", by simp [send, hd, ho]⟩
    | null =>
      exact ⟨mkError "cmd must be a string." "INVALID_PARAMETER", by simp [send, hd, ho]⟩
    | bool b =>
      exact ⟨mkError "cmd must be a string." "INVALID_PARAMETER", by simp [send, hd, ho]⟩
    | num n =>
      exact ⟨mkError "cmd must be a string." "INVALID_PARAMETER", by simp [send, hd, ho]⟩
    | binary bs =>
      exact ⟨mkError "cmd must be a string." "INVALID_PARAMETER", by simp [send, hd, ho]⟩
    | errObj e =>
      exact ⟨mkError "cmd must be a string." "INVALID_PARAMETER", by simp [send, hd, ho]⟩
    | thunkOk v =>
      exact ⟨mkError "cmd must be a string." "INVALID_PARAMETER", by simp [send, hd, ho]⟩
    | thunkErr v =>
      exact ⟨mkError "cmd must be a string." "INVALID_PARAMETER", by simp [send, hd, ho]⟩
  · intro h
    rcases h with h | h
    · simp [send, h]
    · simp [send, h]

/-- Witness for C3: on an open, live endpoint an internally prefixed command
does raise the configuration error. -/
theorem c3_witness :
    openEndpoint.destroyed = false ∧ wsReadyState openEndpoint = some OPEN ∧
    validCmd (JSValue.str "int:oops") = false ∧
    (∃ e : SWSError,
      send openEndpoint (JSValue.str "int:oops") JSValue.null 2000 = Except.error e) :=
  ⟨rfl, rfl, rfl,
    (c3_validation_gated_on_usable_state openEndpoint (JSValue.str "int:oops")
      JSValue.null 2000).1 rfl rfl rfl⟩

/-- Claim C4 counterexample: after `send("ping", null, 50)` the timeout fires
(request 0 is rejected with the timeout error) yet the pending-request map
STILL holds the entry for id 0 — refuting "the mapping never retains an
entry for an already-timed-out request". -/
theorem c4_counterexample :
    lookupPromise (fireTimer afterPingSend 0).promises 0 =
      some (PromiseState.rejected (JSValue.errObj (timeoutError "ping" 50))) ∧
    mapGet (fireTimer afterPingSend 0).awaitingReply 0 = some ⟨0, 0⟩ := by
  refine ⟨rfl, rfl⟩

/-- Claim C4 (amended): when a pending request's timeout fires, the caller's
promise is rejected with the stored timeout error but the entry is NOT
removed from the pending-request mapping; the mapping is emptied by
`destroy` (and an entry is removed when a matching reply arrives). -/
theorem c4_timeout_rejects_but_entry_retained (st : Endpoint) (tid : Nat)
    (tm : SendTimer)
    (hfind : st.timers.find? (fun t => t.timerId == tid) = some tm)
    (hp : lookupPromise st.promises tm.reqId = some PromiseState.pending)
    (hd : st.destroyed = false) :
    (fireTimer st tid).awaitingReply = st.awaitingReply ∧
    lookupPromise (fireTimer st tid).promises tm.reqId =
      some (PromiseState.rejected (JSValue.errObj tm.err)) ∧
    ((destroy st).1).awaitingReply = [] := by
  rw [fireTimer_found st tid tm hfind]
  exact ⟨rfl, lookupPromise_settle_self _ _ _ hp, by rw [destroy_state st hd]⟩

/-- Witness for C4 (amended), at the concrete post-send state. -/
theorem c4_witness :
    afterPingSend.timers.find? (fun t => t.timerId == 0) =
      some ⟨0, 0, timeoutError "ping" 50⟩ ∧
    lookupPromise afterPingSend.promises 0 = some PromiseState.pending ∧
    afterPingSend.destroyed = false ∧
    ((fireTimer afterPingSend 0).awaitingReply = afterPingSend.awaitingReply ∧
      lookupPromise (fireTimer afterPingSend 0).promises 0 =
        some (PromiseState.rejected (JSValue.errObj (timeoutError "ping" 50))) ∧
      ((destroy afterPingSend).1).awaitingReply = []) :=
  ⟨rfl, rfl, rfl,
    c4_timeout_rejects_but_entry_retained afterPingSend 0
      ⟨0, 0, timeoutError "ping" 50⟩ rfl rfl rfl⟩

/-- Claim C5: a validated `send` arms a timeout whose firing (no reply having
settled the request) rejects the returned promise with the timeout error,
and that error carries the command name and the configured duration in its
message, under the `REPLY_TIMEOUT` code. -/
theorem c5_timeout_rejects_with_cmd_and_duration (st : Endpoint) (c : String)
    (p : JSValue) (t : Nat)
    (hd : st.destroyed = false) (ho : wsReadyState st = some OPEN)
    (h1 : jsStartsWith c "int:" = false) (h2 : reservedNames.contains c = false)
    (hfresh : lookupPromise st.promises st.msgId = none)
    (htfresh : st.timers.find? (fun tm => tm.timerId == st.nextTimerId) = none) :
    ∃ st1 out, send st (JSValue.str c) p t = Except.ok (st1, out) ∧
      out.returnedPromise = some st.msgId ∧
      lookupPromise (fireTimer st1 st.nextTimerId).promises st.msgId =
        some (PromiseState.rejected (JSValue.errObj (timeoutError c t))) ∧
      (timeoutError c t).message =
        "A reply for \"" ++ c ++ "\" was not received within the replyTimeout period of "
          ++ Nat.repr t ++ " ms." ∧
      (timeoutError c t).code = "REPLY_TIMEOUT" := by
  refine ⟨_, _, send_success st c p t hd ho h1 h2, rfl, ?_, rfl, rfl⟩
  have hfind : ((st.timers ++ [SendTimer.mk st.nextTimerId st.msgId (timeoutError c t)]).find?
      (fun tm => tm.timerId == st.nextTimerId)) =
      some (SendTimer.mk st.nextTimerId st.msgId (timeoutError c t)) := by
    rw [find?_append_of_none _ _ _ htfresh]
    simp [List.find?]
  rw [fireTimer_found _ st.nextTimerId _ hfind]
  exact lookupPromise_settle_self _ _ _ (lookupPromise_append _ _ _ hfresh)

/-- Witness for C5: `send("ping", null, 50)` on a fresh open endpoint. -/
theorem c5_witness :
    openEndpoint.destroyed = false ∧ wsReadyState openEndpoint = some OPEN ∧
    jsStartsWith "ping" "int:" = false ∧ reservedNames.contains "ping" = false ∧
    lookupPromise openEndpoint.promises openEndpoint.msgId = none ∧
    openEndpoint.timers.find? (fun tm => tm.timerId == openEndpoint.nextTimerId) = none ∧
    (∃ st1 out,
      send openEndpoint (JSValue.str "ping") JSValue.null 50 = Except.ok (st1, out) ∧
      out.returnedPromise = some openEndpoint.msgId ∧
      lookupPromise (fireTimer st1 openEndpoint.nextTimerId).promises openEndpoint.msgId =
        some (PromiseState.rejected (JSValue.errObj (timeoutError "ping" 50))) ∧
      (timeoutError "ping" 50).message =
        "A reply for \"" ++ "ping" ++ "\" was not received within the replyTimeout period of "
          ++ Nat.repr 50 ++ " ms." ∧
      (timeoutError "ping" 50).code = "REPLY_TIMEOUT") :=
  ⟨rfl, rfl, rfl, rfl, rfl, rfl,
    c5_timeout_rejects_with_cmd_and_duration openEndpoint "ping" JSValue.null 50
      rfl rfl rfl rfl rfl rfl⟩

/-- Claim C6: starting from counter value `msgId`, a sequence of validated
`send` calls on an open live endpoint transmits exactly one envelope per
call, with ids `msgId, msgId+1, ...` — strictly increasing, never repeated —
and neither rebinding the transport nor destroying resets the counter, which
starts at 0 on a fresh endpoint. -/
theorem c6_message_ids_strictly_increase (st : Endpoint)
    (calls : List (String × JSValue))
    (hd : st.destroyed = false) (ho : wsReadyState st = some OPEN)
    (hv : ∀ cp ∈ calls, validCmdStr cp.1 = true) :
    (runSends st calls).2.length = calls.length ∧
    sentIds (runSends st calls).2 = idRange st.msgId calls.length ∧
    List.Pairwise (fun a b => a < b) (sentIds (runSends st calls).2) ∧
    (runSends st calls).1.msgId = st.msgId + calls.length ∧
    (∀ w : WS, ((changeWebSocket st w).1).msgId = st.msgId) ∧
    ((destroy st).1).msgId = st.msgId ∧
    freshEndpoint.msgId = 0 := by
  obtain ⟨hl, hi, hm⟩ := runSends_spec calls st hd ho hv
  refine ⟨hl, hi, ?_, hm, fun w => changeWebSocket_msgId st w, destroy_msgId st, rfl⟩
  rw [hi]
  exact idRange_pairwise calls.length st.msgId

/-- Witness for C6: two sends on a fresh open endpoint. -/
theorem c6_witness :
    (∀ cp ∈ ([("a", JSValue.null), ("b", JSValue.null)] : List (String × JSValue)),
      validCmdStr cp.1 = true) ∧
    openEndpoint.destroyed = false ∧ wsReadyState openEndpoint = some OPEN ∧
    sentIds (runSends openEndpoint [("a", JSValue.null), ("b", JSValue.null)]).2 =
      idRange openEndpoint.msgId 2 :=
  ⟨by decide, rfl, rfl,
    (c6_message_ids_strictly_increase openEndpoint
      [("a", JSValue.null), ("b", JSValue.null)] rfl rfl (by decide)).2.1⟩

/-- Claim C7: an incoming user-command envelope whose event name has zero
subscribers makes the endpoint send back exactly one `errorReply` envelope
for that id with payload `"No listener for command: " ++ cmd`, with no state
change. -/
theorem c7_no_listener_sends_error_reply (st : Endpoint) (listened : List String)
    (c : String) (p : JSValue) (i : Nat)
    (hd : st.destroyed = false) (ho : wsReadyState st = some OPEN)
    (hc : c ∉ internalTags) (hl : c ∉ listened) :
    onMessage st listened (WireIn.text (ParseOutcome.parsed ⟨some c, p, some i⟩)) =
      Except.ok (st,
        ⟨[Frame.text ⟨some "int:errorReply",
            JSValue.str ("No listener for command: " ++ c), some i⟩],
          [], dbg st ["incoming"] ++ dbg st ["outgoing"]⟩) := by
  simp [onMessage, hd, hc, hl, reply, ho, isBinaryPayload]

/-- Witness for C7: command `"hello"` with no subscribers on a fresh open
endpoint. -/
theorem c7_witness :
    openEndpoint.destroyed = false ∧ wsReadyState openEndpoint = some OPEN ∧
    "hello" ∉ internalTags ∧ "hello" ∉ ([] : List String) ∧
    onMessage openEndpoint [] (WireIn.text (ParseOutcome.parsed ⟨some "hello", JSValue.null, some 1⟩)) =
      Except.ok (openEndpoint,
        ⟨[Frame.text ⟨some "int:errorReply",
            JSValue.str ("No listener for command: " ++ "hello"), some 1⟩],
          [], dbg openEndpoint ["incoming"] ++ dbg openEndpoint ["outgoing"]⟩) :=
  ⟨rfl, rfl, by decide, by decide,
    c7_no_listener_sends_error_reply openEndpoint [] "hello" JSValue.null 1
      rfl rfl (by decide) (by decide)⟩

/-- Claim C8 counterexample: calling the reply helper with a binary payload
and the error flag set does NOT surface an error to its caller and DOES send
a frame — the throw from the low-level reply routine is caught inside the
helper and converted into an `errorReply` envelope carrying the error. -/
theorem c8_counterexample :
    (replyFunc openEndpoint (some 0) (JSValue.binary [1, 2, 3]) true).frames =
      [Frame.text ⟨some "int:errorReply",
        JSValue.errObj (mkError "Can\x27t send a binary error reply." "INVALID_PARAMETER"),
        some 0⟩] ∧
    (replyFunc openEndpoint (some 0) (JSValue.binary [1, 2, 3]) true).helperRejected =
      none := by
  refine ⟨rfl, rfl⟩

/-- Claim C8 (amended): the low-level reply routine raises the configuration
error for a binary error reply before sending any frame; the public reply
helper, however, catches it and sends a single non-binary `errorReply`
envelope carrying the error object, so its caller sees no error.  With the
error flag unset the helper sends the `binaryReply` marker envelope
(carrying only the id) and then the raw binary payload, in that order. -/
theorem c8_binary_reply_behaviour (st : Endpoint) (id : Option Nat) (bs : List Nat)
    (hd : st.destroyed = false) (ho : wsReadyState st = some OPEN) :
    reply st id (JSValue.binary bs) true =
      Except.error (mkError "Can\x27t send a binary error reply." "INVALID_PARAMETER") ∧
    replyFunc st id (JSValue.binary bs) true =
      ⟨[Frame.text ⟨some "int:errorReply",
          JSValue.errObj (mkError "Can\x27t send a binary error reply." "INVALID_PARAMETER"),
          id⟩],
        dbg st ["outgoing"], none⟩ ∧
    replyFunc st id (JSValue.binary bs) false =
      ⟨[Frame.text ⟨some "int:binaryReply", JSValue.undef, id⟩,
          Frame.binary (JSValue.binary bs)], dbg st ["outgoing"], none⟩ := by
  refine ⟨?_, ?_, ?_⟩ <;> simp [reply, replyFunc, hd, ho, isBinaryPayload, Except.mapError]

/-- Witness for C8 (amended) on a fresh open endpoint. -/
theorem c8_witness :
    openEndpoint.destroyed = false ∧ wsReadyState openEndpoint = some OPEN ∧
    replyFunc openEndpoint (some 4) (JSValue.binary [9]) false =
      ⟨[Frame.text ⟨some "int:binaryReply", JSValue.undef, some 4⟩,
          Frame.binary (JSValue.binary [9])], dbg openEndpoint ["outgoing"], none⟩ :=
  ⟨rfl, rfl,
    (c8_binary_reply_behaviour openEndpoint (some 4) [9] rfl rfl).2.2⟩

/-- Claim C9: the inbound parse step is unguarded — a text frame whose
contents fail to parse escapes as an uncaught parse exception — while a
frame that parses to an envelope with an absent `cmd` is discarded with only
a debug notice (no frame, no emit, no state change). -/
theorem c9_unguarded_parse_guarded_malformed (st : Endpoint)
    (listened : List String) (emsg : String) (p : JSValue) (i : Option Nat)
    (hd : st.destroyed = false) :
    onMessage st listened (WireIn.text (ParseOutcome.failed emsg)) =
      Except.error (RunErr.jsonParseError emsg) ∧
    onMessage st listened (WireIn.text (ParseOutcome.parsed ⟨none, p, i⟩)) =
      Except.ok (st, ⟨[], [], dbg st ["incoming"] ++ dbg st ["Invalid message received"]⟩) := by
  constructor <;> simp [onMessage, hd]

/-- Witness for C9 on a fresh open endpoint. -/
theorem c9_witness :
    openEndpoint.destroyed = false ∧
    (onMessage openEndpoint [] (WireIn.text (ParseOutcome.failed "Unexpected token")) =
      Except.error (RunErr.jsonParseError "Unexpected token") ∧
    onMessage openEndpoint [] (WireIn.text (ParseOutcome.parsed ⟨none, JSValue.null, none⟩)) =
      Except.ok (openEndpoint,
        ⟨[], [], dbg openEndpoint ["incoming"] ++ dbg openEndpoint ["Invalid message received"]⟩)) :=
  ⟨rfl, c9_unguarded_parse_guarded_malformed openEndpoint [] "Unexpected token"
    JSValue.null none rfl⟩

/-- Claim C10: destroying with a request pending clears the pending-request
map but leaves the reply-timeout armed; afterwards no event whatsoever can
resolve the caller's promise, and it is settled exactly when that timeout
fires, by rejection with the stored timeout error — so, granted the host
guarantee that every armed timeout eventually fires, the promise is
eventually rejected with the timeout error, never resolved and never left
permanently pending. -/
theorem c10_destroy_pending_rejects_on_timeout (st0 : Endpoint) (i tid : Nat)
    (err : SWSError) (evs : List Event)
    (hd : st0.destroyed = false)
    (hp : lookupPromise st0.promises i = some PromiseState.pending)
    (hm : SendTimer.mk tid i err ∈ st0.timers)
    (hu : ∀ tm ∈ st0.timers, (tm.reqId = i ∨ tm.timerId = tid) →
      tm = SendTimer.mk tid i err) :
    ((destroy st0).1).awaitingReply = [] ∧
    SendTimer.mk tid i err ∈ ((destroy st0).1).timers ∧
    lookupPromise ((destroy st0).1).promises i = some PromiseState.pending ∧
    (Event.fireTimer tid ∈ evs →
      lookupPromise (List.foldl stepEv (destroy st0).1 evs).promises i =
        some (PromiseState.rejected (JSValue.errObj err))) ∧
    (Event.fireTimer tid ∉ evs →
      lookupPromise (List.foldl stepEv (destroy st0).1 evs).promises i =
        some PromiseState.pending) := by
  have hst1 : (destroy st0).1 = { st0 with destroyed := true, awaitingReply := [] } :=
    destroy_state st0 hd
  have hL : C10Left i tid err (destroy st0).1 := by
    rw [hst1]
    exact ⟨rfl, hp, hm, hu⟩
  refine ⟨by rw [hst1], by rw [hst1]; exact hm, by rw [hst1]; exact hp, ?_, ?_⟩
  · intro hmem
    exact (c10_left_fold_fire i tid err evs _ hL hmem).2.1
  · intro hnm
    exact (c10_left_fold_nofire i tid err evs _ hL hnm).2.1

/-- Witness for C10: an endpoint with one pending request is destroyed, then
its timeout fires; the promise ends rejected with the timeout error. -/
theorem c10_witness :
    pendingEndpoint.destroyed = false ∧
    lookupPromise pendingEndpoint.promises 0 = some PromiseState.pending ∧
    SendTimer.mk 0 0 (timeoutError "a" 50) ∈ pendingEndpoint.timers ∧
    (∀ tm ∈ pendingEndpoint.timers, (tm.reqId = 0 ∨ tm.timerId = 0) →
      tm = SendTimer.mk 0 0 (timeoutError "a" 50)) ∧
    lookupPromise
        (List.foldl stepEv (destroy pendingEndpoint).1 [Event.fireTimer 0]).promises 0 =
      some (PromiseState.rejected (JSValue.errObj (timeoutError "a" 50))) :=
  ⟨rfl, rfl, List.Mem.head _, by decide,
    (c10_destroy_pending_rejects_on_timeout pendingEndpoint 0 0 (timeoutError "a" 50)
      [Event.fireTimer 0] rfl rfl (List.Mem.head _) (by decide)).2.2.2.1
      (List.Mem.head _)⟩

end SWS
